import Mathlib

/-!
Verification of the fl-studio-mcp command/response protocol core.

Shallow embedding of:
* `src/src/fl_studio_mcp/utils/midi_connection.py` — `MIDIConnection.send_command`,
  `MIDIConnection._wait_for_response`, `MIDIConnection.ensure_connected`, and the
  response-file clearing step inside `send_command`;
* `src/src/fl_studio_mcp/tools/piano_roll.py` — `_write_request`, `_clear_request_file`;
* `src/fl_controller/device_FLStudioMCP.py` — `OnMidiMsg`, `execute_pending_command`,
  `dispatch_command`, and the trigger-note constant.

Modelling conventions:
* JSON values are the inductive `JVal`; a file's content is `FileData`: either
  `FileData.json v` (text that `json.loads` parses to `v`) or `FileData.text raw`
  (text on which `json.loads` raises `JSONDecodeError`; `raw` also stands in for
  the decode error's rendering when it is interpolated into an error message).
* A file slot on disk is `Option FileData` (`none` = the file does not exist).
* Python exceptions crossing a function boundary are `Except String`; a function
  that cannot raise is a plain total function.
* Real time is abstracted: the poll loop of `_wait_for_response` is driven by the
  finite list of response-file states it observes, one per iteration that happens
  before the deadline; the `timeout` argument (a rational standing in for the
  Python float) is then only interpolated into the timeout error message, exactly
  as in the source.
* OS-level read/write/unlink failures on the files are not modelled (the source
  either swallows them or they fall under "truly unexpected local failures").
-/

/-- A JSON value, as produced by `json.loads` / consumed by `json.dump`. -/
inductive JVal where
  | jnull
  | jbool (b : Bool)
  | jnum (n : Int)
  | jstr (s : String)
  | jarr (elems : List JVal)
  | jobj (fields : List (String × JVal))

/-- Content of a file on disk: either text that parses as JSON, or text that
`json.loads` rejects. -/
inductive FileData where
  | text (raw : String)
  | json (v : JVal)

/-- `json.loads` on a file's content: succeeds exactly on `FileData.json`. -/
def parseData : FileData → Option JVal
  | .text _ => none
  | .json v => some v

/-- First-match lookup in a JSON object's field list (JSON objects produced by
`json.loads` have unique keys, so this is Python `dict` access). -/
def lookupField : List (String × JVal) → String → Option JVal
  | [], _ => none
  | (k, v) :: rest, key => if key = k then some v else lookupField rest key

/-- Python `d.get(key, dflt)` on a JSON object; `dflt` on non-objects. -/
def jget (v : JVal) (key : String) (dflt : JVal) : JVal :=
  match v with
  | .jobj fields => (lookupField fields key).getD dflt
  | _ => dflt

/-- `True` iff the value is a JSON object (Python `isinstance(x, dict)`). -/
def JVal.isObj : JVal → Bool
  | .jobj _ => true
  | _ => false

/-- The failed-Response dictionary used throughout `midi_connection.py`. -/
def failResp (msg : String) : JVal :=
  .jobj [("success", .jbool false), ("error", .jstr msg)]

/-- The timeout error message built at `midi_connection.py:230-237`
(`timeout` interpolated between the two fixed pieces). -/
def timeoutMsg (timeout : ℚ) : String :=
  "Timeout waiting for FL Studio response after " ++ toString timeout ++
    "s. Make sure FL Studio is running and the MCP controller is enabled in MIDI Settings."

/-- The malformed-response error message of `midi_connection.py:224`; the
`JSONDecodeError`'s rendering is abstracted by the file's raw text. -/
def invalidJsonMsg (d : FileData) : String :=
  "Invalid JSON in response: " ++ (match d with | .text raw => raw | .json _ => "")

/-- `MIDIConnection._wait_for_response` (`midi_connection.py:198-237`).

Input `polls` is the response-file state observed at each loop iteration that
occurs before the deadline. Returns the Response the method returns, paired with
the response-file state at the moment it returns (`none` = the file does not
exist). Source behaviour embedded: file absent → sleep and poll again; file
present and parsing → unlink it, return the parsed value; file present but
`json.loads` raises → return the failed Response at once, the file untouched
(the `unlink` at line 218 sits after `json.loads` in the `try`, so the
`JSONDecodeError` path never reaches it); deadline reached → timeout Response. -/
def wait_for_response : List (Option FileData) → ℚ → JVal × Option FileData
  | [], timeout => (failResp (timeoutMsg timeout), none)
  | obs :: rest, timeout =>
    match obs with
    | none => wait_for_response rest timeout
    | some d =>
      match parseData d with
      | some v => (v, none)
      | none => (failResp (invalidJsonMsg d), some d)

/-- The "clear old response file" step of `send_command`
(`midi_connection.py:180-185`): `unlink` guarded by `exists()`, any exception
swallowed — a total function on the file slot. -/
def clearResponseStep (f : Option FileData) : Option FileData :=
  if f.isSome then none else f

/-- `Path.unlink`: deletes the file, raising `FileNotFoundError` when it does
not exist. -/
def unlinkFile : Option FileData → Except String (Option FileData)
  | none => .error "FileNotFoundError"
  | some _ => .ok none

/-- `_clear_request_file` (`piano_roll.py:86-90`): `unlink` guarded by
`exists()`, no exception handler. -/
def clear_request_file (f : Option FileData) : Except String (Option FileData) :=
  if f.isSome then unlinkFile f else .ok f

/-- The list a request argument contributes to the queue in `_write_request`
(`piano_roll.py:76-79`): a list extends, anything else is appended as one
entry. -/
def request_entries (request : JVal) : List JVal :=
  match request with
  | .jarr vs => vs
  | v => [v]

/-- The existing-queue recovery of `_write_request` (`piano_roll.py:62-73`):
a missing file, unparseable content, or a non-list non-dict value yields `[]`;
a JSON list is taken as is; a single JSON object becomes a one-element list. -/
def existing_entries (file : Option FileData) : List JVal :=
  match file with
  | none => []
  | some d =>
    match parseData d with
    | some (.jarr xs) => xs
    | some (.jobj fields) => [.jobj fields]
    | _ => []

/-- `_write_request` (`piano_roll.py:58-83`): recover the existing queue,
append the new entry or entries, rewrite the whole file via `json.dump`
(hence the result always parses as a JSON list). -/
def write_request (file : Option FileData) (request : JVal) : FileData :=
  .json (.jarr (existing_entries file ++ request_entries request))

/-- `s` contains `sub` as a contiguous substring. -/
def containsSubstring (s sub : String) : Prop :=
  ∃ p q, s = p ++ sub ++ q

/-- Environment of one `MIDIConnection.send_command` call: the connection state,
the outcome the filesystem and MIDI library would give each step, and the
response-file states the poll loop observes. -/
structure SendEnv where
  /-- `self._connected and self._port is not None` at entry. -/
  isConnected : Bool
  /-- whether `self.connect()` would return `True` if attempted. -/
  connectSucceeds : Bool
  /-- `self._error` after a failed connect attempt. -/
  connectErr : Option String
  /-- whether `self._command_file.write_text(...)` succeeds. -/
  writeCommandOk : Bool
  /-- rendering of the exception raised by a failed command-file write. -/
  writeErr : String
  /-- whether building and sending the MIDI trigger message succeeds. -/
  midiSendOk : Bool
  /-- rendering of the exception raised by a failed MIDI send. -/
  midiErr : String
  /-- response-file states observed by `_wait_for_response`, one per iteration
  before the deadline. -/
  polls : List (Option FileData)

/-- `MIDIConnection.ensure_connected` (`midi_connection.py:139-145`): returns
normally when connected or when a connect attempt succeeds; otherwise raises
`RuntimeError(self._error or "Failed to connect to FL Studio via MIDI")`. -/
def ensure_connected (env : SendEnv) : Except String Unit :=
  if env.isConnected then .ok ()
  else if env.connectSucceeds then .ok ()
  else .error (env.connectErr.getD "Failed to connect to FL Studio via MIDI")

/-- `MIDIConnection.send_command` (`midi_connection.py:147-196`):
`ensure_connected` (may raise — `Except.error`); write the command file
(failure → failed Response); clear any old response file (cannot raise);
send the MIDI trigger (failure → failed Response); then `_wait_for_response`.
The command-file write and the trigger send are represented by their outcomes
in `env`; the returned Response is the first component of
`wait_for_response`. -/
def send_command (env : SendEnv) (timeout : ℚ) : Except String JVal :=
  match ensure_connected env with
  | .error e => .error e
  | .ok _ =>
    if env.writeCommandOk = false then
      .ok (failResp ("Failed to write command file: " ++ env.writeErr))
    else if env.midiSendOk = false then
      .ok (failResp ("Failed to send MIDI trigger: " ++ env.midiErr))
    else
      .ok (wait_for_response env.polls timeout).1

/-- `TRIGGER_NOTE` (`midi_connection.py:50`, `device_FLStudioMCP.py:62`). -/
def TRIGGER_NOTE : Nat := 127

/-- A MIDI short message, as built by `mido.Message` / seen by FL Studio's
`OnMidiMsg` event (`midiId` is the status byte; note-on is `0x90`). -/
structure MidiMsg where
  midiId : Nat
  data1 : Nat
  data2 : Nat

/-- The trigger message sent at `midi_connection.py:190`:
`mido.Message("note_on", note=TRIGGER_NOTE, velocity=127)` (note-on status
`0x90` on mido's default channel 0). -/
def triggerMsg : MidiMsg :=
  { midiId := 0x90, data1 := TRIGGER_NOTE, data2 := 127 }

/-- The condition under which `OnMidiMsg` (`device_FLStudioMCP.py:77-82`) calls
`execute_pending_command`:
`event.midiId == 0x90 and event.data1 == TRIGGER_NOTE and event.data2 > 0`. -/
def OnMidiMsg_triggers (event : MidiMsg) : Bool :=
  event.midiId == 0x90 && event.data1 == TRIGGER_NOTE && decide (0 < event.data2)

/-- The FL Studio API handlers of `device_FLStudioMCP.py` (the
`handle_*` functions), abstracted as an uninterpreted map from the action
string and the params object to the result dictionary's field list. Their
bodies call the FL Studio native API, which runs outside this program; the
dispatcher's routing does not depend on what they return. Handlers are total
here (a handler exception, caught at `device_FLStudioMCP.py:114`, is not
modelled — no claim concerns it). -/
def FLApi : Type := String → JVal → List (String × JVal)

/-- Python `\x7b**a, **b\x7d` on dictionaries: keys of `a` in order with values
overridden by `b` where present, then keys of `b` not in `a`. -/
def pyDictMerge (a b : List (String × JVal)) : List (String × JVal) :=
  (a.map fun kv =>
    match lookupField b kv.1 with
    | some v => (kv.1, v)
    | none => kv) ++
    b.filter fun kv => (lookupField a kv.1).isNone

/-- `command.get(key, dflt)` when the value is used as a string (the `action`
field; `dispatch_command` annotates it `str`). A non-string value at the key is
outside the model. -/
def jgetStr (cmd : JVal) (key : String) (dflt : String) : String :=
  match jget cmd key (.jstr dflt) with
  | .jstr s => s
  | _ => dflt

/-- The action strings of the `if/elif` dispatch table
(`device_FLStudioMCP.py:128-236`), in chain order. -/
def knownActions : List String :=
  ["transport.start", "transport.stop", "transport.record",
   "transport.getStatus", "transport.setPosition", "transport.getLength",
   "transport.setLoopMode", "transport.setPlaybackSpeed",
   "mixer.getTrackCount", "mixer.getTrackInfo", "mixer.getAllTracks",
   "mixer.setTrackVolume", "mixer.setTrackPan", "mixer.muteTrack",
   "mixer.soloTrack", "mixer.armTrack", "mixer.setTrackName",
   "mixer.setTrackColor", "mixer.setStereoSep",
   "channels.getCount", "channels.getInfo", "channels.getAll",
   "channels.getSelected", "channels.select", "channels.selectOne",
   "channels.triggerNote", "channels.setVolume", "channels.setPan",
   "channels.mute", "channels.solo", "channels.setName", "channels.setColor",
   "channels.routeToMixer",
   "channels.getGridBit", "channels.setGridBit", "channels.getStepSequence",
   "channels.setStepSequence",
   "plugins.isValid", "plugins.getName", "plugins.getParamCount",
   "plugins.getParams", "plugins.getParamValue", "plugins.setParamValue",
   "plugins.getPresetCount", "plugins.nextPreset", "plugins.prevPreset",
   "plugins.getColor"]

/-- `dispatch_command` (`device_FLStudioMCP.py:128-236`): the `if/elif` chain
routing the action string to its handler; the final `else` returns the
unknown-action dictionary (note: with only an `"error"` key, no `"success"`
key). Each handler call is `api <action> params`. -/
def dispatch_command (api : FLApi) (action : String) (params : JVal) :
    List (String × JVal) :=
  if action = "transport.start" then api "transport.start" params
  else if action = "transport.stop" then api "transport.stop" params
  else if action = "transport.record" then api "transport.record" params
  else if action = "transport.getStatus" then api "transport.getStatus" params
  else if action = "transport.setPosition" then api "transport.setPosition" params
  else if action = "transport.getLength" then api "transport.getLength" params
  else if action = "transport.setLoopMode" then api "transport.setLoopMode" params
  else if action = "transport.setPlaybackSpeed" then api "transport.setPlaybackSpeed" params
  else if action = "mixer.getTrackCount" then api "mixer.getTrackCount" params
  else if action = "mixer.getTrackInfo" then api "mixer.getTrackInfo" params
  else if action = "mixer.getAllTracks" then api "mixer.getAllTracks" params
  else if action = "mixer.setTrackVolume" then api "mixer.setTrackVolume" params
  else if action = "mixer.setTrackPan" then api "mixer.setTrackPan" params
  else if action = "mixer.muteTrack" then api "mixer.muteTrack" params
  else if action = "mixer.soloTrack" then api "mixer.soloTrack" params
  else if action = "mixer.armTrack" then api "mixer.armTrack" params
  else if action = "mixer.setTrackName" then api "mixer.setTrackName" params
  else if action = "mixer.setTrackColor" then api "mixer.setTrackColor" params
  else if action = "mixer.setStereoSep" then api "mixer.setStereoSep" params
  else if action = "channels.getCount" then api "channels.getCount" params
  else if action = "channels.getInfo" then api "channels.getInfo" params
  else if action = "channels.getAll" then api "channels.getAll" params
  else if action = "channels.getSelected" then api "channels.getSelected" params
  else if action = "channels.select" then api "channels.select" params
  else if action = "channels.selectOne" then api "channels.selectOne" params
  else if action = "channels.triggerNote" then api "channels.triggerNote" params
  else if action = "channels.setVolume" then api "channels.setVolume" params
  else if action = "channels.setPan" then api "channels.setPan" params
  else if action = "channels.mute" then api "channels.mute" params
  else if action = "channels.solo" then api "channels.solo" params
  else if action = "channels.setName" then api "channels.setName" params
  else if action = "channels.setColor" then api "channels.setColor" params
  else if action = "channels.routeToMixer" then api "channels.routeToMixer" params
  else if action = "channels.getGridBit" then api "channels.getGridBit" params
  else if action = "channels.setGridBit" then api "channels.setGridBit" params
  else if action = "channels.getStepSequence" then api "channels.getStepSequence" params
  else if action = "channels.setStepSequence" then api "channels.setStepSequence" params
  else if action = "plugins.isValid" then api "plugins.isValid" params
  else if action = "plugins.getName" then api "plugins.getName" params
  else if action = "plugins.getParamCount" then api "plugins.getParamCount" params
  else if action = "plugins.getParams" then api "plugins.getParams" params
  else if action = "plugins.getParamValue" then api "plugins.getParamValue" params
  else if action = "plugins.setParamValue" then api "plugins.setParamValue" params
  else if action = "plugins.getPresetCount" then api "plugins.getPresetCount" params
  else if action = "plugins.nextPreset" then api "plugins.nextPreset" params
  else if action = "plugins.prevPreset" then api "plugins.prevPreset" params
  else if action = "plugins.getColor" then api "plugins.getColor" params
  else [("error", .jstr ("Unknown action: " ++ action))]

/-- `execute_pending_command` (`device_FLStudioMCP.py:91-117`), as a function
from the command-file state to the Response value it passes to
`write_response`. Missing file → failed Response; unparseable file → failed
Response; otherwise extract `action`/`params` with defaults, dispatch, and
merge the result into a success Response via
`response = \x7b"success": True, **result\x7d` (`device_FLStudioMCP.py:110`) —
note this sets `"success": True` even when `dispatch_command` returned its
unknown-action error dictionary. -/
def execute_pending_command (api : FLApi) (commandFile : Option FileData) :
    JVal :=
  match commandFile with
  | none => .jobj [("success", .jbool false), ("error", .jstr "No command file found")]
  | some d =>
    match parseData d with
    | none =>
      .jobj [("success", .jbool false),
             ("error", .jstr ("Invalid JSON in command file: " ++
               (match d with | .text raw => raw | .json _ => "")))]
    | some cmd =>
      let action := jgetStr cmd "action" ""
      let params := jget cmd "params" (.jobj [])
      let result := dispatch_command api action params
      .jobj (pyDictMerge [("success", .jbool true)] result)

-- Helper: a run of absent-file observations is skipped by the poll loop.
theorem wait_for_response_skip_none (pre rest : List (Option FileData)) (t : ℚ)
    (h : ∀ o ∈ pre, o = none) :
    wait_for_response (pre ++ rest) t = wait_for_response rest t := by
  induction pre with
  | nil => rfl
  | cons o pre ih =>
    have ho : o = none := h o (List.mem_cons_self o pre)
    subst ho
    simpa [wait_for_response] using ih (fun o ho => h o (List.mem_cons_of_mem _ ho))

-- Helper: ensure_connected returns normally when connected or reconnectable.
theorem ensure_connected_ok (env : SendEnv)
    (h : (env.isConnected || env.connectSucceeds) = true) :
    ensure_connected env = .ok () := by
  rcases Bool.or_eq_true_iff.mp h with h1 | h2
  · simp [ensure_connected, h1]
  · simp [ensure_connected, h2]

-- Helper: a non-array request contributes itself as a single queue entry.
theorem request_entries_of_obj (v : JVal) (h : v.isObj = true) :
    request_entries v = [v] := by
  cases v <;> first | rfl | simp [JVal.isObj] at h

/-- Claim C7: the trigger message built by `send_command` is a note-on
(status `0x90`) with note number 127 and nonzero (full) velocity, and
`OnMidiMsg` in the DAW-side controller invokes `execute_pending_command`
exactly on events with status `0x90`, note number 127 and velocity greater
than zero. -/
theorem C7_trigger_note :
    (triggerMsg.midiId = 0x90 ∧ triggerMsg.data1 = 127 ∧ 0 < triggerMsg.data2) ∧
    ∀ e : MidiMsg, OnMidiMsg_triggers e = true ↔
      (e.midiId = 0x90 ∧ e.data1 = 127 ∧ 0 < e.data2) := by
  refine ⟨⟨rfl, rfl, by decide⟩, ?_⟩
  intro e
  simp [OnMidiMsg_triggers, TRIGGER_NOTE, and_assoc]

/-- Claim C7 witness: the message `send_command` sends satisfies the DAW-side
trigger condition. -/
theorem C7_trigger_note_witness :
    OnMidiMsg_triggers ⟨0x90, 127, 127⟩ = true :=
  (C7_trigger_note.2 ⟨0x90, 127, 127⟩).mpr ⟨rfl, rfl, by decide⟩

/-- Claim C8: the response-file deletion step of `send_command` and
`_clear_request_file` are idempotent: on a missing file they complete without
raising and leave the state unchanged, and applying either twice equals
applying it once. -/
theorem C8_clear_idempotent (f : Option FileData) :
    (∃ g, clear_request_file f = .ok g) ∧
    clear_request_file none = .ok none ∧
    (clear_request_file f).bind clear_request_file = clear_request_file f ∧
    clearResponseStep none = none ∧
    clearResponseStep (clearResponseStep f) = clearResponseStep f := by
  refine ⟨?_, rfl, ?_, rfl, ?_⟩ <;>
    cases f <;> simp [clear_request_file, unlinkFile, clearResponseStep, Except.bind]

/-- Claim C1 (divergence exhibit): on a command file naming the unknown action
`"bogus"`, the DAW-side dispatcher produces the response
`\x7b"success": true, "error": "Unknown action: bogus"\x7d` — `success` is
`true`, not the `false` the contract requires — for every behaviour of the
underlying FL Studio API. -/
theorem C1_unknown_action_success_true (api : FLApi) :
    execute_pending_command api
      (some (.json (.jobj [("action", .jstr "bogus"), ("params", .jobj [])])))
      = .jobj [("success", .jbool true), ("error", .jstr "Unknown action: bogus")] := by
  rfl

/-- Claim C3: when the response file never appears during polling,
`send_command` returns a Response with `success = false` whose error message
contains the configured timeout value. -/
theorem C3_timeout_message (env : SendEnv) (t : ℚ)
    (hconn : env.isConnected = true) (hw : env.writeCommandOk = true)
    (hm : env.midiSendOk = true) (hp : ∀ o ∈ env.polls, o = none) :
    send_command env t = .ok (failResp (timeoutMsg t)) ∧
    jget (failResp (timeoutMsg t)) "success" .jnull = .jbool false ∧
    containsSubstring (timeoutMsg t) (toString t) := by
  have hc : ensure_connected env = .ok () := by simp [ensure_connected, hconn]
  have hskip : wait_for_response env.polls t = wait_for_response [] t := by
    simpa using wait_for_response_skip_none env.polls [] t hp
  refine ⟨?_, rfl, ?_⟩
  · simp [send_command, hc, hw, hm, hskip, wait_for_response]
  · exact ⟨"Timeout waiting for FL Studio response after ",
      "s. Make sure FL Studio is running and the MCP controller is enabled in MIDI Settings.",
      rfl⟩

/-- Claim C3 witness: a concrete three-iteration poll with the file absent
throughout, timeout 2. -/
theorem C3_timeout_message_witness :
    send_command ⟨true, false, none, true, "", true, "", [none, none, none]⟩ 2
        = .ok (failResp (timeoutMsg 2)) ∧
      jget (failResp (timeoutMsg 2)) "success" .jnull = .jbool false ∧
      containsSubstring (timeoutMsg 2) (toString (2 : ℚ)) :=
  C3_timeout_message ⟨true, false, none, true, "", true, "", [none, none, none]⟩ 2
    rfl rfl rfl (by simp)

/-- Claim C4: the first poll iteration that observes a response file whose
content does not parse returns a failed Response with the malformed-response
error message, and polling does not continue: the result is the same whatever
observations would have followed. -/
theorem C4_malformed_no_retry (pre post : List (Option FileData)) (d : FileData)
    (t : ℚ) (hpre : ∀ o ∈ pre, o = none) (hbad : parseData d = none) :
    (wait_for_response (pre ++ some d :: post) t).1 = failResp (invalidJsonMsg d) ∧
    wait_for_response (pre ++ some d :: post) t
      = wait_for_response (pre ++ [some d]) t := by
  rw [wait_for_response_skip_none pre (some d :: post) t hpre,
    wait_for_response_skip_none pre [some d] t hpre]
  constructor <;> simp [wait_for_response, hbad]

/-- Claim C4 witness: unparseable content observed at the second iteration,
with a parseable response queued behind it that is never considered. -/
theorem C4_malformed_no_retry_witness :
    (wait_for_response ([none] ++ some (FileData.text "oops")
        :: [some (FileData.json .jnull)]) 2).1
      = failResp (invalidJsonMsg (FileData.text "oops")) ∧
    wait_for_response ([none] ++ some (FileData.text "oops")
        :: [some (FileData.json .jnull)]) 2
      = wait_for_response ([none] ++ [some (FileData.text "oops")]) 2 :=
  C4_malformed_no_retry [none] [some (FileData.json .jnull)]
    (FileData.text "oops") 2 (by simp) rfl

/-- Claim C5: when a poll iteration observes a response file whose content
parses to `v`, `send_command` returns exactly `v`, and the response file no
longer exists at return. -/
theorem C5_roundtrip (env : SendEnv) (t : ℚ) (pre post : List (Option FileData))
    (v : JVal) (hconn : env.isConnected = true) (hw : env.writeCommandOk = true)
    (hm : env.midiSendOk = true)
    (hpolls : env.polls = pre ++ some (.json v) :: post)
    (hpre : ∀ o ∈ pre, o = none) :
    send_command env t = .ok v ∧ (wait_for_response env.polls t).2 = none := by
  have hc : ensure_connected env = .ok () := by simp [ensure_connected, hconn]
  have hskip := wait_for_response_skip_none pre (some (.json v) :: post) t hpre
  constructor
  · simp [send_command, hc, hw, hm, hpolls, hskip, wait_for_response, parseData]
  · simp [hpolls, hskip, wait_for_response, parseData]

/-- Claim C5 witness: the DAW-side writes a response parsing to
`\x7b"success": true, "value": 42\x7d` at the second iteration. -/
theorem C5_roundtrip_witness :
    send_command ⟨true, false, none, true, "", true, "",
        [none, some (.json (.jobj [("success", .jbool true), ("value", .jnum 42)])),
          none]⟩ 2
      = .ok (.jobj [("success", .jbool true), ("value", .jnum 42)]) ∧
    (wait_for_response
        [none, some (.json (.jobj [("success", .jbool true), ("value", .jnum 42)])),
          none] 2).2 = none :=
  C5_roundtrip ⟨true, false, none, true, "", true, "",
      [none, some (.json (.jobj [("success", .jbool true), ("value", .jnum 42)])),
        none]⟩ 2
    [none] [none] (.jobj [("success", .jbool true), ("value", .jnum 42)])
    rfl rfl rfl rfl (by simp)

/-- Claim C9: on unparseable response-file content, `_wait_for_response`
returns with the file still on disk; on a successful parse the file has been
deleted when it returns. -/
theorem C9_file_retention (pre post : List (Option FileData)) (d : FileData)
    (v : JVal) (t : ℚ) (hpre : ∀ o ∈ pre, o = none) :
    (parseData d = none →
      (wait_for_response (pre ++ some d :: post) t).2 = some d) ∧
    (wait_for_response (pre ++ some (.json v) :: post) t).2 = none := by
  rw [wait_for_response_skip_none pre (some d :: post) t hpre,
    wait_for_response_skip_none pre (some (.json v) :: post) t hpre]
  constructor
  · intro hbad
    simp [wait_for_response, hbad]
  · simp [wait_for_response, parseData]

/-- Claim C9 witness: the malformed file `"oops"` remains; the parsed file is
gone. -/
theorem C9_file_retention_witness :
    (parseData (FileData.text "oops") = none →
      (wait_for_response ([] ++ some (FileData.text "oops") :: []) 2).2
        = some (FileData.text "oops")) ∧
    (wait_for_response ([] ++ some (FileData.json .jnull) :: []) 2).2 = none :=
  C9_file_retention [] [] (FileData.text "oops") .jnull 2 (by simp)

/-- Claim C6: `_write_request` treats a missing or unparseable queue file as an
empty queue; three sequential single-object appends starting from such a state
yield a queue file holding exactly those three objects in call order, and an
append after the file is deleted yields a queue holding only the new object. -/
theorem C6_append_queue (a b c : JVal) (f : Option FileData)
    (ha : a.isObj = true) (hb : b.isObj = true) (hc : c.isObj = true)
    (hf : ∀ d, f = some d → parseData d = none) :
    existing_entries f = [] ∧
    write_request (some (write_request (some (write_request f a)) b)) c
      = .json (.jarr [a, b, c]) ∧
    write_request none a = .json (.jarr [a]) := by
  have hempty : existing_entries f = [] := by
    cases f with
    | none => rfl
    | some d =>
      cases d with
      | text raw => rfl
      | json v => exact absurd (hf _ rfl) (by simp [parseData])
  refine ⟨hempty, ?_, ?_⟩
  · have h1 : write_request f a = .json (.jarr [a]) := by
      simp [write_request, hempty, request_entries_of_obj a ha]
    have h2 : write_request (some (.json (.jarr [a]))) b = .json (.jarr [a, b]) := by
      simp [write_request, existing_entries, parseData, request_entries_of_obj b hb]
    rw [h1, h2]
    simp [write_request, existing_entries, parseData, request_entries_of_obj c hc]
  · simp [write_request, existing_entries, request_entries_of_obj a ha]

/-- Claim C6 witness: three piano-roll request objects appended over an
initially corrupt queue file. -/
theorem C6_append_queue_witness :
    existing_entries (some (FileData.text "corrupt")) = [] ∧
    write_request
        (some (write_request
          (some (write_request (some (FileData.text "corrupt"))
            (.jobj [("action", .jstr "add_notes")])))
          (.jobj [("action", .jstr "add_chord")])))
        (.jobj [("action", .jstr "clear")])
      = .json (.jarr [.jobj [("action", .jstr "add_notes")],
          .jobj [("action", .jstr "add_chord")],
          .jobj [("action", .jstr "clear")]]) ∧
    write_request none (.jobj [("action", .jstr "add_notes")])
      = .json (.jarr [.jobj [("action", .jstr "add_notes")]]) :=
  C6_append_queue (.jobj [("action", .jstr "add_notes")])
    (.jobj [("action", .jstr "add_chord")]) (.jobj [("action", .jstr "clear")])
    (some (FileData.text "corrupt"))
    rfl rfl rfl (by intro d hd; cases hd; rfl)

/-- Claim C10: after every `_write_request` the queue file parses as a JSON
array; a prior single JSON object is normalized to a one-element list before
the new entries, and corrupt or missing prior content is replaced by a list of
just the new entries. -/
theorem C10_always_array (f : Option FileData) (req : JVal) :
    (∃ xs, write_request f req = .json (.jarr xs)) ∧
    (∀ fields, f = some (.json (.jobj fields)) →
      write_request f req = .json (.jarr (.jobj fields :: request_entries req))) ∧
    (∀ raw, f = some (.text raw) →
      write_request f req = .json (.jarr (request_entries req))) ∧
    (f = none → write_request f req = .json (.jarr (request_entries req))) := by
  refine ⟨⟨existing_entries f ++ request_entries req, rfl⟩, ?_, ?_, ?_⟩
  · rintro fields rfl
    simp [write_request, existing_entries, parseData]
  · rintro raw rfl
    simp [write_request, existing_entries, parseData]
  · rintro rfl
    simp [write_request, existing_entries]

/-- Claim C10 witness: a queue file holding the single object
`\x7b"a": null\x7d` is normalized to a one-element list before the new entry. -/
theorem C10_always_array_witness :
    write_request (some (.json (.jobj [("a", .jnull)])))
        (.jobj [("action", .jstr "clear")])
      = .json (.jarr [.jobj [("a", .jnull)],
          .jobj [("action", .jstr "clear")]]) :=
  (C10_always_array (some (.json (.jobj [("a", .jnull)])))
      (.jobj [("action", .jstr "clear")])).2.1 [("a", .jnull)] rfl

/-- Claim C2 counterexample: when no transport channel is available
(not connected, and a connect attempt fails), `send_command` raises the
`RuntimeError` from `ensure_connected` instead of returning a failed Response
dictionary — refuting "send_command never raises an exception for these
cases". -/
theorem C2_counterexample :
    send_command
        ⟨false, false,
          some "No MIDI output ports found. On Mac, enable IAC Driver in Audio MIDI Setup.",
          true, "", true, "", []⟩ 2
      = .error "No MIDI output ports found. On Mac, enable IAC Driver in Audio MIDI Setup." :=
  rfl

/-- Claim C2 (amended): once the connection step succeeds, `send_command`
never raises: a command-file write failure, a trigger-send failure, a timeout,
and a malformed response each come back as a failed Response
(`success = false`, descriptive error string), and a response written by the
DAW side (including any DAW-reported dispatch failure) is returned verbatim;
only a connection failure is raised, from `ensure_connected`. -/
theorem C2_uniform_failed_response (env : SendEnv) (t : ℚ)
    (hconn : (env.isConnected || env.connectSucceeds) = true) :
    (∃ r, send_command env t = .ok r) ∧
    (∀ m, jget (failResp m) "success" .jnull = .jbool false) ∧
    (env.writeCommandOk = false →
      send_command env t
        = .ok (failResp ("Failed to write command file: " ++ env.writeErr))) ∧
    (env.writeCommandOk = true → env.midiSendOk = false →
      send_command env t
        = .ok (failResp ("Failed to send MIDI trigger: " ++ env.midiErr))) ∧
    (env.writeCommandOk = true → env.midiSendOk = true →
      (∀ o ∈ env.polls, o = none) →
      send_command env t = .ok (failResp (timeoutMsg t))) ∧
    (env.writeCommandOk = true → env.midiSendOk = true →
      ∀ pre d post, env.polls = pre ++ some d :: post →
        (∀ o ∈ pre, o = none) → parseData d = none →
        send_command env t = .ok (failResp (invalidJsonMsg d))) ∧
    (env.writeCommandOk = true → env.midiSendOk = true →
      ∀ pre v post, env.polls = pre ++ some (.json v) :: post →
        (∀ o ∈ pre, o = none) →
        send_command env t = .ok v) := by
  have hc : ensure_connected env = .ok () := ensure_connected_ok env hconn
  refine ⟨?_, fun m => rfl, ?_, ?_, ?_, ?_, ?_⟩
  · cases hw : env.writeCommandOk with
    | false =>
      exact ⟨failResp ("Failed to write command file: " ++ env.writeErr),
        by simp [send_command, hc, hw]⟩
    | true =>
      cases hm : env.midiSendOk with
      | false =>
        exact ⟨failResp ("Failed to send MIDI trigger: " ++ env.midiErr),
          by simp [send_command, hc, hw, hm]⟩
      | true =>
        exact ⟨(wait_for_response env.polls t).1,
          by simp [send_command, hc, hw, hm]⟩
  · intro hw
    simp [send_command, hc, hw]
  · intro hw hm
    simp [send_command, hc, hw, hm]
  · intro hw hm hp
    have hskip : wait_for_response env.polls t = wait_for_response [] t := by
      simpa using wait_for_response_skip_none env.polls [] t hp
    simp [send_command, hc, hw, hm, hskip, wait_for_response]
  · intro hw hm pre d post hpolls hpre hbad
    have hskip := wait_for_response_skip_none pre (some d :: post) t hpre
    simp [send_command, hc, hw, hm, hpolls, hskip, wait_for_response, hbad]
  · intro hw hm pre v post hpolls hpre
    have hskip := wait_for_response_skip_none pre (some (.json v) :: post) t hpre
    simp [send_command, hc, hw, hm, hpolls, hskip, wait_for_response, parseData]

/-- Claim C2 (amended) witness: a connected environment whose MIDI trigger
send fails yields the descriptive failed Response, not an exception. -/
theorem C2_uniform_failed_response_witness :
    send_command ⟨true, false, none, true, "", false, "port closed", []⟩ 2
      = .ok (failResp ("Failed to send MIDI trigger: " ++ "port closed")) :=
  (C2_uniform_failed_response
      ⟨true, false, none, true, "", false, "port closed", []⟩ 2 rfl).2.2.2.1
    rfl rfl
